import Mathlib

/-!
Verification of the thermal-time calculator (`thermal_time_calculator.py`).

Temperatures, latitudes and day-of-year values are modelled as rationals
(`ℚ`): the Python code computes with IEEE doubles, but every claim under
study is an exact-arithmetic property of the formulas, and pandas stores
the day-of-year column as a float as well.  The growing-season flag is an
integer (`ℤ`), matching the `0` / `1` values used by the source.  File
output is modelled as the list of data rows that follow the header line;
a run that raises before opening the output file is an `Except.error`.
-/

/-- Module-level constant `T_THLD = 10.0` (threshold temperature). -/
def T_THLD : ℚ := 10

/-- Module-level constant `T_BASE = 6.0` (base temperature). -/
def T_BASE : ℚ := 6

/-- Module-level constant `T_OPT = 100.0` (optimum temperature). -/
def T_OPT : ℚ := 100

/-- Module-level constant `T_MAX = 100.0` (maximum temperature). -/
def T_MAX : ℚ := 100

/-- `thermal_time(t_base, t_opt, tmax, tmp)`: the piecewise temperature
response function (source lines 14-23).  In ℚ, `x / 0 = 0`, so the third
branch is total here; reachability of its division is tracked separately
by `thirdBranchTaken`. -/
def thermal_time (t_base t_opt tmax tmp : ℚ) : ℚ :=
  if tmp ≤ t_base ∨ tmp ≥ tmax then 0
  else if tmp < t_opt then tmp - t_base
  else (tmax - tmp) / (tmax - t_opt) * (t_opt - t_base)

/-- The condition under which evaluating `thermal_time` reaches the third
branch, the one whose formula divides by `tmax - t_opt`. -/
def thirdBranchTaken (t_base t_opt tmax tmp : ℚ) : Prop :=
  ¬(tmp ≤ t_base ∨ tmp ≥ tmax) ∧ ¬(tmp < t_opt)

instance (t_base t_opt tmax tmp : ℚ) :
    Decidable (thirdBranchTaken t_base t_opt tmax tmp) := by
  unfold thirdBranchTaken; infer_instance

/-- The growing-season gate: lines 53-60 of `cum_thermal_time`.  When
`latitude >= 0`, first the spring assignment (`gs = 1 if doy < 152 and
tmp >= T_THLD else gs`), then the fall assignment (`gs = 0 if doy >= 245
and tmp < T_THLD else gs`); when `latitude < 0` the prior flag passes
through unchanged. -/
def season_gate (latitude doy tmp : ℚ) (gs : ℤ) : ℤ :=
  if latitude ≥ 0 then
    if doy ≥ 245 ∧ tmp < T_THLD then 0
    else if doy < 152 ∧ tmp ≥ T_THLD then 1
    else gs
  else gs

/-- The same two conditional assignments applied in the opposite order
(fall assignment first, then spring assignment), used to state that the
order of the two independent assignments does not matter. -/
def season_gate_swapped (latitude doy tmp : ℚ) (gs : ℤ) : ℤ :=
  if latitude ≥ 0 then
    if doy < 152 ∧ tmp ≥ T_THLD then 1
    else if doy ≥ 245 ∧ tmp < T_THLD then 0
    else gs
  else gs

/-- `cum_thermal_time(latitude, doy, tmp, tavg, gs, tt0)` (source lines
50-65): update the growing-season flag by the two conditional
assignments, then `tt = thermal_time(T_BASE, T_OPT, T_MAX, tavg) + tt0
if gs == 1 else 0.0`. -/
def cum_thermal_time (latitude doy tmp tavg : ℚ) (gs : ℤ) (tt0 : ℚ) :
    ℤ × ℚ :=
  (season_gate latitude doy tmp gs,
    if season_gate latitude doy tmp gs = 1 then
      thermal_time T_BASE T_OPT T_MAX tavg + tt0
    else 0)

/-- One day's input to the accumulator: day-of-year, the reference
temperature fed to the gate (`tma` in Mode A, `tavg` in Mode B), and the
plain daily average temperature used as the integrand. -/
structure DayRec where
  doy : ℚ
  tmp : ℚ
  tavg : ℚ
deriving DecidableEq, Repr

/-- The per-file driver loop (source lines 174-188): fold the day records
through `cum_thermal_time`, starting from the state passed in, and record
one `(record, flag, cumulative)` output row per input record. -/
def run_series (latitude : ℚ) : List DayRec → ℤ → ℚ → List (DayRec × ℤ × ℚ)
  | [], _, _ => []
  | r :: rs, gs, tt0 =>
    (r, cum_thermal_time latitude r.doy r.tmp r.tavg gs tt0) ::
      run_series latitude rs
        (cum_thermal_time latitude r.doy r.tmp r.tavg gs tt0).1
        (cum_thermal_time latitude r.doy r.tmp r.tavg gs tt0).2

/-- A parsed weather-table row (the columns `read_weather` keeps:
year, day-of-year, tmax, tmin; source lines 34-42). -/
structure WRow where
  year : ℚ
  doy : ℚ
  tmax : ℚ
  tmin : ℚ
deriving DecidableEq, Repr

/-- `df['tavg'] = 0.5 * df['tmax'] + 0.5 * df['tmin']` (line 45). -/
def WRow.tavg (r : WRow) : ℚ := (1 / 2) * r.tmax + (1 / 2) * r.tmin

/-- Insert a value into an ascending-sorted list of labels. -/
def insertAsc (x : ℚ) : List ℚ → List ℚ
  | [] => [x]
  | y :: ys => if x ≤ y then x :: y :: ys else y :: insertAsc x ys

/-- Insertion sort, ascending: pandas `groupby` returns its group labels
in ascending order. -/
def sortAsc : List ℚ → List ℚ
  | [] => []
  | x :: xs => insertAsc x (sortAsc xs)

/-- The distinct day-of-year labels of a table, ascending: the index of
`df.groupby('doy').mean()` (line 161). -/
def doyLabels (rows : List WRow) : List ℚ :=
  sortAsc (rows.map WRow.doy).dedup

/-- The mean of `tavg` over the rows carrying day-of-year label `k`. -/
def groupMeanTavg (rows : List WRow) (k : ℚ) : ℚ :=
  ((rows.filter fun r => decide (r.doy = k)).map WRow.tavg).sum /
    (((rows.filter fun r => decide (r.doy = k)).length : ℚ))

/-- `df.groupby('doy').mean()` restricted to the columns the Mode B
output consumes: one `(label, mean tavg)` pair per distinct label,
in ascending label order. -/
def groupbyDoyMean (rows : List WRow) : List (ℚ × ℚ) :=
  (doyLabels rows).map fun k => (k, groupMeanTavg rows k)

/-- `df.drop(label)` on a labelled table (line 161 `.drop(366)`): remove
the rows with the given index label; pandas raises `KeyError` when the
label is absent, modelled as `Except.error`. -/
def dropLabel (label : ℚ) (tbl : List (ℚ × ℚ)) :
    Except String (List (ℚ × ℚ)) :=
  if tbl.any fun p => decide (p.1 = label) then
    Except.ok (tbl.filter fun p => decide (p.1 ≠ label))
  else Except.error "label not found in axis"

/-- Mode B feeds each aggregated `(doy, tavg)` pair to the accumulator
with the mean `tavg` as both the gate's reference temperature and the
integrand (line 182, `all_days` false). -/
def modeBRecs (tbl : List (ℚ × ℚ)) : List DayRec :=
  tbl.map fun p => ⟨p.1, p.2, p.2⟩

/-- Trailing moving average with `min_periods=1` at position `i`:
`df.rolling(window, min_periods=1).mean()['tavg']` (line 158). -/
def rollingMeanAt (window : ℕ) (xs : List ℚ) (i : ℕ) : ℚ :=
  (((xs.take (i + 1)).drop (i + 1 - window)).sum) /
    ((((xs.take (i + 1)).drop (i + 1 - window)).length : ℚ))

/-- Mode A records: each row keeps its own `tavg` as integrand and the
rolling mean as the gate's reference temperature (lines 158, 182). -/
def modeARecs (window : ℕ) (rows : List WRow) : List DayRec :=
  rows.enum.map fun p =>
    ⟨p.2.doy, rollingMeanAt window (rows.map WRow.tavg) p.1, p.2.tavg⟩

/-- Mode A per-file run.  pandas `rolling(window, min_periods=1)` raises
`ValueError` for `window < 1` (with `min_periods=1` the window must be a
positive integer); that check runs per file, after the input file has
already been read, and is modelled by the guard here. -/
def processFileA (latitude : ℚ) (window : ℤ) (rows : List WRow) :
    Except String (List (DayRec × ℤ × ℚ)) :=
  if 1 ≤ window then
    Except.ok (run_series latitude (modeARecs window.toNat rows) 0 0)
  else Except.error "window must be an integer 1 or greater"

/-- Mode B per-file run (lines 159-162, then the driver loop): aggregate
by day-of-year, drop label 366 (raising, before the output file is
opened, when the label is absent), then fold the driver. -/
def processFileB (latitude : ℚ) (rows : List WRow) :
    Except String (List (DayRec × ℤ × ℚ)) :=
  match dropLabel 366 (groupbyDoyMean rows) with
  | Except.error e => Except.error e
  | Except.ok tbl => Except.ok (run_series latitude (modeBRecs tbl) 0 0)

/-- One file of `main`, after the weather table has been parsed: Mode A
when `all_days` is set, Mode B otherwise.  `Except.ok rows` models an
output file holding the header line followed by `rows`; `Except.error`
models a raised exception that aborts the run before this file's data
rows are written.  Note that `window` is only consulted in Mode A. -/
def processFile (all_days : Bool) (latitude : ℚ) (window : ℤ)
    (rows : List WRow) : Except String (List (DayRec × ℤ × ℚ)) :=
  if all_days then processFileA latitude window rows
  else processFileB latitude rows

/-- C1: for a calibration with `base < optimum < max`, the response is 0
outside `(base, max)`, is `temp - base` on `(base, optimum)`, is
`(max - temp) / (max - optimum) * (optimum - base)` on `[optimum, max)`,
and equals `optimum - base` at `temp = optimum`. -/
theorem thermal_time_piecewise (b o m t : ℚ) (hbo : b < o) (hom : o < m) :
    ((t ≤ b ∨ t ≥ m) → thermal_time b o m t = 0) ∧
    (b < t → t < o → thermal_time b o m t = t - b) ∧
    (o ≤ t → t < m → thermal_time b o m t = (m - t) / (m - o) * (o - b)) ∧
    thermal_time b o m o = o - b := by
  refine ⟨?_, ?_, ?_, ?_⟩
  · intro h
    rw [thermal_time, if_pos h]
  · intro h1 h2
    rw [thermal_time, if_neg (by push_neg; constructor <;> linarith),
      if_pos h2]
  · intro h1 h2
    rw [thermal_time, if_neg (by push_neg; constructor <;> linarith),
      if_neg (not_lt.mpr h1)]
  · rw [thermal_time, if_neg (by push_neg; constructor <;> linarith),
      if_neg (lt_irrefl o),
      div_self (sub_ne_zero.mpr (ne_of_gt hom)), one_mul]

/-- Witness for C1: at calibration `(6, 50, 100)` and `temp = 50 =
optimum`, the response equals `optimum - base`. -/
theorem thermal_time_piecewise_witness : thermal_time 6 50 100 50 = 50 - 6 :=
  (thermal_time_piecewise 6 50 100 50 (by norm_num) (by norm_num)).2.2.2

/-- C2: with `latitude ≥ 0`, one gate step yields `1` (GROWING) when
`doy < 152` and `tmp ≥ T_THLD`, yields `0` (DORMANT) when `doy ≥ 245`
and `tmp < T_THLD`, and otherwise returns the prior flag unchanged. -/
theorem season_gate_step (latitude doy tmp : ℚ) (gs : ℤ)
    (hlat : latitude ≥ 0) :
    (doy < 152 ∧ tmp ≥ T_THLD → season_gate latitude doy tmp gs = 1) ∧
    (doy ≥ 245 ∧ tmp < T_THLD → season_gate latitude doy tmp gs = 0) ∧
    (¬(doy < 152 ∧ tmp ≥ T_THLD) → ¬(doy ≥ 245 ∧ tmp < T_THLD) →
      season_gate latitude doy tmp gs = gs) := by
  refine ⟨?_, ?_, ?_⟩
  · intro hs
    have hnf : ¬(doy ≥ 245 ∧ tmp < T_THLD) := by
      rintro ⟨hf, -⟩; linarith [hs.1]
    rw [season_gate, if_pos hlat, if_neg hnf, if_pos hs]
  · intro hf
    rw [season_gate, if_pos hlat, if_pos hf]
  · intro hns hnf
    rw [season_gate, if_pos hlat, if_neg hnf, if_neg hns]

/-- Witness for C2: latitude 45, day 100, reference temperature 12 with
prior flag 0 switches the flag to 1 (GROWING). -/
theorem season_gate_step_witness : season_gate 45 100 12 0 = 1 :=
  (season_gate_step 45 100 12 0 (by norm_num)).1
    ⟨by norm_num, by norm_num [T_THLD]⟩

/-- C3: each accumulator step first computes the new flag by the season
gate, then the new cumulative is the response at `tavg` plus the prior
cumulative when the new flag is GROWING, and `0` otherwise. -/
theorem cum_thermal_time_step (latitude doy tmp tavg tt0 : ℚ) (gs : ℤ) :
    (cum_thermal_time latitude doy tmp tavg gs tt0).1 =
      season_gate latitude doy tmp gs ∧
    (season_gate latitude doy tmp gs = 1 →
      (cum_thermal_time latitude doy tmp tavg gs tt0).2 =
        thermal_time T_BASE T_OPT T_MAX tavg + tt0) ∧
    (season_gate latitude doy tmp gs ≠ 1 →
      (cum_thermal_time latitude doy tmp tavg gs tt0).2 = 0) := by
  refine ⟨rfl, ?_, ?_⟩ <;> intro h <;> simp [cum_thermal_time, h]

/-- Witness for C3: at latitude 45, day 100, reference temperature 12,
`tavg = 20`, prior state `(0, 0)`, the gate yields GROWING and the
cumulative is the response at 20 plus the prior cumulative. -/
theorem cum_thermal_time_step_witness :
    (cum_thermal_time 45 100 12 20 0 0).2 =
      thermal_time T_BASE T_OPT T_MAX 20 + 0 :=
  (cum_thermal_time_step 45 100 12 20 0 0).2.1 (by decide)

/-- C6 counterexample: with the deployed calibration `T_BASE = 6`,
`T_OPT = 100`, `T_MAX = 100` (optimum = max), no input temperature ever
reaches the third branch of `thermal_time`, so its division by
`tmax - t_opt = 0` is never executed. -/
theorem no_third_branch_when_opt_eq_max :
    ¬∃ tmp : ℚ, thirdBranchTaken T_BASE T_OPT T_MAX tmp := by
  rintro ⟨t, h1, h2⟩
  push_neg at h1 h2
  have := h1.2
  simp [T_OPT, T_MAX] at *
  linarith

/-- C6 (amended): with calibration `base = 6`, `optimum = max = 100`, the
guard `tmp >= tmax` subsumes `tmp >= t_opt`, so the third branch is
unreachable for every temperature and the function returns `0` for all
`tmp ≥ optimum` without any explicit special case. -/
theorem opt_eq_max_third_branch_dead (tmp : ℚ) :
    ¬thirdBranchTaken T_BASE T_OPT T_MAX tmp ∧
    (tmp ≥ T_OPT → thermal_time T_BASE T_OPT T_MAX tmp = 0) := by
  constructor
  · rintro ⟨h1, h2⟩
    push_neg at h1 h2
    have := h1.2
    simp [T_OPT, T_MAX] at *
    linarith
  · intro h
    rw [thermal_time, if_pos]
    right
    simpa [T_OPT, T_MAX] using h

/-- Witness for C6 (amended): at `tmp = 100 ≥ optimum` the response is
exactly 0. -/
theorem opt_eq_max_third_branch_dead_witness :
    thermal_time T_BASE T_OPT T_MAX 100 = 0 :=
  (opt_eq_max_third_branch_dead 100).2 (by norm_num [T_OPT])

/-- C7: the spring-trigger and fall-trigger conditions are never both
true on the same day, and applying the two conditional assignments in
either order yields the same new flag. -/
theorem gate_triggers_disjoint (latitude doy tmp : ℚ) (gs : ℤ) :
    ¬((doy < 152 ∧ tmp ≥ T_THLD) ∧ (doy ≥ 245 ∧ tmp < T_THLD)) ∧
    season_gate latitude doy tmp gs = season_gate_swapped latitude doy tmp gs := by
  constructor
  · rintro ⟨⟨hs, -⟩, ⟨hf, -⟩⟩
    linarith
  · by_cases hlat : latitude ≥ 0
    · by_cases hs : doy < 152 ∧ tmp ≥ T_THLD <;>
        by_cases hf : doy ≥ 245 ∧ tmp < T_THLD
      · exact absurd hf.1 (not_le.mpr (by linarith [hs.1]))
      all_goals simp [season_gate, season_gate_swapped, hlat, hs, hf]
    · simp [season_gate, season_gate_swapped, hlat]

/-- If a step's updated flag is not 1, its cumulative output is 0
(the `else 0.0` arm of line 63). -/
lemma cum_snd_zero_of_fst_ne_one (latitude doy tmp tavg tt0 : ℚ) (gs : ℤ)
    (h : (cum_thermal_time latitude doy tmp tavg gs tt0).1 ≠ 1) :
    (cum_thermal_time latitude doy tmp tavg gs tt0).2 = 0 := by
  have hg : season_gate latitude doy tmp gs ≠ 1 := h
  simp [cum_thermal_time, hg]

/-- Every output row of the driver, from any starting state, has
cumulative 0 whenever its flag is not 1. -/
lemma run_series_flag_cum (latitude : ℚ) (recs : List DayRec) :
    ∀ gs tt0, ∀ row ∈ run_series latitude recs gs tt0,
      row.2.1 ≠ 1 → row.2.2 = 0 := by
  induction recs with
  | nil =>
    intro gs tt0 row hrow
    simp [run_series] at hrow
  | cons r rs ih =>
    intro gs tt0 row hrow hne
    rw [run_series] at hrow
    rcases List.mem_cons.mp hrow with h | h
    · subst h
      exact cum_snd_zero_of_fst_ne_one _ _ _ _ _ _ hne
    · exact ih _ _ row h hne

/-- C4: in a run of the series driver from the initial state
`(DORMANT, 0)`, every output row whose season flag is 0 has cumulative
exactly 0, regardless of what was accumulated on earlier days. -/
theorem run_series_dormant_reset (latitude : ℚ) (recs : List DayRec)
    (row : DayRec × ℤ × ℚ) (hmem : row ∈ run_series latitude recs 0 0)
    (hflag : row.2.1 = 0) : row.2.2 = 0 :=
  run_series_flag_cum latitude recs 0 0 row hmem (by rw [hflag]; decide)

/-- Witness for C4: at latitude 45 the single day 250 with reference
temperature 8 produces the dormant row `(flag 0, cumulative 0)`. -/
theorem run_series_dormant_reset_witness :
    ((⟨250, 8, 20⟩, 0, 0) : DayRec × ℤ × ℚ).2.2 = 0 :=
  run_series_dormant_reset 45 [⟨250, 8, 20⟩] (⟨250, 8, 20⟩, 0, 0)
    (by decide) (by decide)

/-- When `latitude < 0`, the gate passes the prior flag through
unchanged. -/
lemma season_gate_southern (latitude doy tmp : ℚ) (gs : ℤ)
    (h : latitude < 0) : season_gate latitude doy tmp gs = gs := by
  rw [season_gate, if_neg (not_le.mpr h)]

/-- When `latitude < 0`, a default-initialized run maps every record to
the row `(record, 0, 0)`. -/
lemma run_series_southern_aux (latitude : ℚ) (h : latitude < 0)
    (recs : List DayRec) :
    run_series latitude recs 0 0 = recs.map (fun r => (r, 0, 0)) := by
  induction recs with
  | nil => rfl
  | cons r rs ih =>
    have hg : cum_thermal_time latitude r.doy r.tmp r.tavg 0 0 = (0, 0) := by
      simp [cum_thermal_time, season_gate_southern _ _ _ _ h]
    simp [run_series, hg, ih]

/-- C5: when `latitude < 0` no step changes the flag, so a
default-initialized run keeps flag 0 (DORMANT) and cumulative 0 on every
output row, for any day-of-year and temperature sequence. -/
theorem run_series_southern_passthrough (latitude : ℚ) (recs : List DayRec)
    (h : latitude < 0) :
    ∀ row ∈ run_series latitude recs 0 0, row.2.1 = 0 ∧ row.2.2 = 0 := by
  intro row hrow
  rw [run_series_southern_aux latitude h recs] at hrow
  rcases List.mem_map.mp hrow with ⟨r, -, hr⟩
  rw [← hr]
  exact ⟨rfl, rfl⟩

/-- Witness for C5: at latitude -30, day 100 with reference temperature
12 (which would trigger GROWING in the north) leaves `(0, 0)`. -/
theorem run_series_southern_passthrough_witness :
    ((⟨100, 12, 20⟩, 0, 0) : DayRec × ℤ × ℚ).2.1 = 0 ∧
    ((⟨100, 12, 20⟩, 0, 0) : DayRec × ℤ × ℚ).2.2 = 0 :=
  run_series_southern_passthrough (-30) [⟨100, 12, 20⟩] (by norm_num)
    (⟨100, 12, 20⟩, 0, 0) (by decide)

lemma mem_insertAsc (a x : ℚ) (l : List ℚ) :
    a ∈ insertAsc x l ↔ a = x ∨ a ∈ l := by
  induction l with
  | nil => simp [insertAsc]
  | cons y ys ih =>
    by_cases h : x ≤ y
    · simp [insertAsc, h]
    · simp [insertAsc, h, ih]
      tauto

lemma mem_sortAsc (a : ℚ) (l : List ℚ) : a ∈ sortAsc l ↔ a ∈ l := by
  induction l with
  | nil => simp [sortAsc]
  | cons x xs ih => simp [sortAsc, mem_insertAsc, ih]

lemma mem_doyLabels (rows : List WRow) (k : ℚ) :
    k ∈ doyLabels rows ↔ k ∈ rows.map WRow.doy := by
  rw [doyLabels, mem_sortAsc, List.mem_dedup]

lemma dropLabel_isOk (label : ℚ) (tbl : List (ℚ × ℚ)) :
    (∃ out, dropLabel label tbl = Except.ok out) ↔ ∃ p ∈ tbl, p.1 = label := by
  rw [dropLabel]
  by_cases h : (tbl.any fun p => decide (p.1 = label)) = true
  · rw [if_pos h]
    constructor
    · intro _
      simpa using List.any_eq_true.mp h
    · intro _
      exact ⟨_, rfl⟩
  · rw [if_neg h]
    constructor
    · rintro ⟨out, hout⟩
      simp at hout
    · intro hp
      exact absurd (List.any_eq_true.mpr (by simpa using hp)) h

lemma dropLabel_ok_eq (label : ℚ) (tbl out : List (ℚ × ℚ))
    (h : dropLabel label tbl = Except.ok out) :
    out = tbl.filter fun p => decide (p.1 ≠ label) := by
  rw [dropLabel] at h
  by_cases hc : (tbl.any fun p => decide (p.1 = label)) = true
  · rw [if_pos hc] at h
    injection h with h
    exact h.symm
  · rw [if_neg hc] at h
    simp at h

lemma run_series_fst_mem (latitude : ℚ) (recs : List DayRec) :
    ∀ gs tt0 row, row ∈ run_series latitude recs gs tt0 → row.1 ∈ recs := by
  induction recs with
  | nil =>
    intro gs tt0 row h
    simp [run_series] at h
  | cons r rs ih =>
    intro gs tt0 row h
    rw [run_series] at h
    rcases List.mem_cons.mp h with h | h
    · subst h
      exact List.mem_cons_self _ _
    · exact List.mem_cons_of_mem _ (ih _ _ _ h)

lemma processFileB_error (latitude : ℚ) (rows : List WRow) (e : String)
    (h : dropLabel 366 (groupbyDoyMean rows) = Except.error e) :
    processFileB latitude rows = Except.error e := by
  unfold processFileB
  rw [h]

lemma processFileB_ok_val (latitude : ℚ) (rows : List WRow)
    (tbl : List (ℚ × ℚ))
    (h : dropLabel 366 (groupbyDoyMean rows) = Except.ok tbl) :
    processFileB latitude rows =
      Except.ok (run_series latitude (modeBRecs tbl) 0 0) := by
  unfold processFileB
  rw [h]

/-- C8 counterexample: in Mode B a zero-row parsed table does not
produce a header-only output file; aggregation yields no day-366 group,
so `drop(366)` raises before the output file is even opened. -/
theorem empty_input_modeB_fails :
    processFile false 45 14 [] = Except.error "label not found in axis" := rfl

/-- C8 (amended): with a valid window, a zero-row parsed table yields a
header-only output file in Mode A, while in Mode B the run aborts at
`drop(366)` before the output file is created. -/
theorem empty_input_two_modes (latitude : ℚ) (window : ℤ)
    (hw : 1 ≤ window) :
    processFile true latitude window [] = Except.ok [] ∧
    processFile false latitude window [] =
      Except.error "label not found in axis" := by
  constructor
  · simp [processFile, processFileA, hw, modeARecs, run_series]
  · have h : dropLabel 366 (groupbyDoyMean []) =
        Except.error "label not found in axis" := rfl
    simpa [processFile] using processFileB_error latitude [] _ h

/-- Witness for C8 (amended): latitude 45, the default window 14. -/
theorem empty_input_two_modes_witness :
    processFile true 45 14 [] = Except.ok [] ∧
    processFile false 45 14 [] = Except.error "label not found in axis" :=
  empty_input_two_modes 45 14 (by norm_num)

/-- Concrete Mode B evaluation used by several checks: a two-row file
holding day 366 and day 1 aggregates to means 15 and 15, day 366 is
dropped, and the driver runs on the single remaining day. -/
lemma processFileB_example (latitude : ℚ) :
    processFileB latitude [⟨2000, 366, 20, 10⟩, ⟨2000, 1, 20, 10⟩] =
      Except.ok (run_series latitude [⟨1, 15, 15⟩] 0 0) := by
  have h : dropLabel 366
      (groupbyDoyMean [⟨2000, 366, 20, 10⟩, ⟨2000, 1, 20, 10⟩]) =
      Except.ok [(1, 15)] := by
    norm_num [groupbyDoyMean, doyLabels, sortAsc, insertAsc, groupMeanTavg,
      dropLabel, WRow.tavg, List.dedup_cons_of_not_mem, List.dedup_nil,
      List.filter_cons, List.any_cons]
  rw [processFileB_ok_val _ _ _ h]
  rfl

/-- C9 counterexample: with `window = -1` in Mode B, a weather file is
still fully processed and its output rows are written — the
configuration is not rejected before processing. -/
theorem negative_window_still_writes :
    processFile false 45 (-1) [⟨2000, 366, 20, 10⟩, ⟨2000, 1, 20, 10⟩] =
      Except.ok [(⟨1, 15, 15⟩, 1, 9)] := by
  rw [show processFile false 45 (-1) [⟨2000, 366, 20, 10⟩, ⟨2000, 1, 20, 10⟩] =
      processFileB 45 [⟨2000, 366, 20, 10⟩, ⟨2000, 1, 20, 10⟩] from rfl,
    processFileB_example 45]
  norm_num [run_series, cum_thermal_time, season_gate, thermal_time,
    T_THLD, T_BASE, T_OPT, T_MAX]

/-- C9 (amended): the window size is never validated up front: in
Mode B the window value is ignored entirely, files are read and outputs
written for any window including `window ≤ 0`; in Mode A a
`window ≤ 0` surfaces as a per-file failure inside the rolling-average
computation, after the input file has already been read. -/
theorem window_not_validated (latitude : ℚ) (window : ℤ)
    (rows : List WRow) :
    processFile false latitude window rows = processFileB latitude rows ∧
    (window ≤ 0 →
      processFile true latitude window rows =
        Except.error "window must be an integer 1 or greater") := by
  refine ⟨rfl, fun hw => ?_⟩
  have h1 : ¬(1 ≤ window) := by omega
  simp [processFile, processFileA, h1]

/-- Witness for C9 (amended): window -1 in Mode A fails per file. -/
theorem window_not_validated_witness :
    processFile true 45 (-1) [] =
      Except.error "window must be an integer 1 or greater" :=
  (window_not_validated 45 (-1) []).2 (by norm_num)

/-- C10: a Mode B run of a file succeeds exactly when the aggregated
table has a day-366 group; when it does, label 366 is removed and no
output row carries day-of-year 366; when it does not, the drop raises
and the file's output rows are never written. -/
theorem modeB_requires_day366 (latitude : ℚ) (rows : List WRow) :
    ((∃ out, processFileB latitude rows = Except.ok out) ↔
      (366 : ℚ) ∈ rows.map WRow.doy) ∧
    (∀ out, processFileB latitude rows = Except.ok out →
      ∀ row ∈ out, row.1.doy ≠ 366) := by
  constructor
  · rw [← mem_doyLabels]
    constructor
    · rintro ⟨out, hout⟩
      rcases hdl : dropLabel 366 (groupbyDoyMean rows) with e | tbl
      · rw [processFileB_error latitude rows e hdl] at hout
        simp at hout
      · have := (dropLabel_isOk 366 (groupbyDoyMean rows)).mp ⟨tbl, hdl⟩
        rcases this with ⟨p, hp, hlab⟩
        rcases List.mem_map.mp hp with ⟨k, hk, hpk⟩
        rw [← hpk] at hlab
        exact hlab ▸ hk
    · intro h
      have hmem : ∃ p ∈ groupbyDoyMean rows, p.1 = (366 : ℚ) :=
        ⟨(366, groupMeanTavg rows 366), List.mem_map.mpr ⟨366, h, rfl⟩, rfl⟩
      rcases (dropLabel_isOk 366 (groupbyDoyMean rows)).mpr hmem with ⟨tbl, hdl⟩
      exact ⟨_, processFileB_ok_val latitude rows tbl hdl⟩
  · intro out hout row hrow
    rcases hdl : dropLabel 366 (groupbyDoyMean rows) with e | tbl
    · rw [processFileB_error latitude rows e hdl] at hout
      simp at hout
    · rw [processFileB_ok_val latitude rows tbl hdl] at hout
      injection hout with hout
      subst hout
      have hfst := run_series_fst_mem latitude (modeBRecs tbl) 0 0 row hrow
      rcases List.mem_map.mp hfst with ⟨p, hp, hpr⟩
      have htbl := dropLabel_ok_eq 366 (groupbyDoyMean rows) tbl hdl
      rw [htbl] at hp
      have hne : p.1 ≠ (366 : ℚ) :=
        of_decide_eq_true (List.mem_filter.mp hp).2
      rw [← hpr]
      exact hne

/-- Witness for C10: a two-row file carrying day 366 and day 1 is
processed; the single surviving output row has day-of-year 1, not 366. -/
theorem modeB_requires_day366_witness :
    ((⟨1, 15, 15⟩, 1, 9) : DayRec × ℤ × ℚ).1.doy ≠ 366 :=
  (modeB_requires_day366 40 [⟨2000, 366, 20, 10⟩, ⟨2000, 1, 20, 10⟩]).2
    (run_series 40 [⟨1, 15, 15⟩] 0 0) (processFileB_example 40)
    (⟨1, 15, 15⟩, 1, 9)
    (by norm_num [run_series, cum_thermal_time, season_gate, thermal_time,
      T_THLD, T_BASE, T_OPT, T_MAX])
